import Mathlib

/-!
Shallow embedding of the numenor-monitor request-logging core
(src/numenor_monitor/middlewares.py) and proofs about it.

Python machine model used throughout:
- a Python exception is modelled by its message string (`PyExn`);
- `bytes` values are lists of byte values (`List Nat`, each < 256);
- dictionary lookups that may miss return `Option`;
- the database sink `Request.objects.bulk_create` is modelled by an
  outcome oracle: `Nat → Bool` (result of the k-th call) for the drain
  loop, and `Option PyExn` (`none` = success) for a single flush.
-/

namespace NumenorMonitor

/-- A Python exception, modelled by its message string. -/
abbrev PyExn := String

/-- An authenticated user attached to a request (`request.user`). -/
structure UserInfo where
  id : Nat
  username : String
  is_authenticated : Bool
deriving Repr, DecidableEq

/-- One request record, the dict built by `RequestLogger.log_request`
and turned into a `Request` model row. Timestamps are abstract ticks. -/
structure Rec where
  scheme : String
  host : String
  path : String
  query : String
  method : Option String
  ip_address : Option String
  user_agent : String
  user : Option UserInfo
  username : String
  start_at : Nat
  end_at : Nat
  status_code : Int
  error : String
  request_size : Int
  response_size : Nat
deriving Repr, DecidableEq

/-- The mutable state of a `RequestLogger` (worker thread aside):
its queue, the two thresholds, and the last-flush timestamp. -/
structure LoggerState where
  queue : List Rec
  batch_size : Nat
  flush_interval : Nat
  last_flush : Nat
deriving Repr, DecidableEq

/-- `RequestLogger.log_request`: enqueue one record (queue.put). -/
def log_request (st : LoggerState) (r : Rec) : LoggerState :=
  { st with queue := st.queue ++ [r] }

/-- Result of a synchronous drain (`RequestLogger.process_batch`):
the batches successfully persisted by `bulk_create` in call order, the
queue contents at the moment the call returns or raises, and whether an
exception escaped to the caller. -/
structure DrainResult where
  persisted : List (List Rec)
  queue : List Rec
  raised : Bool
deriving Repr, DecidableEq

/-- The loop body of `RequestLogger.process_batch`: pop items while the
queue is non-empty, append to `batch`, bulk-create whenever
`len(batch) >= batch_size`, and bulk-create the remainder at the end.
`outcome k` is whether the k-th `bulk_create` call succeeds; the source
has no try/except here, so a failing call raises out of the loop. -/
def processBatchGo (B : Nat) (outcome : Nat → Bool) :
    List Rec → List Rec → Nat → List (List Rec) → DrainResult
  | [], batch, k, acc =>
      if batch.isEmpty then { persisted := acc, queue := [], raised := false }
      else if outcome k then
        { persisted := acc ++ [batch], queue := [], raised := false }
      else { persisted := acc, queue := [], raised := true }
  | item :: rest, batch, k, acc =>
      if B ≤ (batch ++ [item]).length then
        if outcome k then
          processBatchGo B outcome rest [] (k + 1) (acc ++ [batch ++ [item]])
        else { persisted := acc, queue := rest, raised := true }
      else processBatchGo B outcome rest (batch ++ [item]) k acc

/-- `RequestLogger.process_batch`: synchronous drain of the queue. -/
def process_batch (outcome : Nat → Bool) (st : LoggerState) :
    DrainResult × LoggerState :=
  let r := processBatchGo st.batch_size outcome st.queue [] 0 []
  (r, { st with queue := r.queue })

/-- Result of `RequestLogger._flush_batch`: the batch list after the
call (it is cleared in place), the logger state, the records actually
persisted, and the error-log lines emitted. -/
structure FlushResult where
  batch : List Rec
  logger : LoggerState
  persisted : List Rec
  logs : List String
deriving Repr, DecidableEq

/-- `RequestLogger._flush_batch`: try `bulk_create(batch)`; on success
clear the batch and set `last_flush := now`; on failure log the error
and still clear the batch. `oc` is the bulk-create outcome
(`none` = success, `some e` = it raised `e`). -/
def flush_batch (oc : Option PyExn) (now : Nat) (st : LoggerState)
    (batch : List Rec) : FlushResult :=
  match oc with
  | none =>
      { batch := [], logger := { st with last_flush := now },
        persisted := batch, logs := [] }
  | some e =>
      { batch := [], logger := st, persisted := [],
        logs := ["Error bulk creating records: " ++ e] }

/-- An inbound HTTP request, restricted to what the middleware reads.
`META` lookups (`HTTP_X_FORWARDED_FOR`, `REMOTE_ADDR`,
`HTTP_USER_AGENT`, `CONTENT_LENGTH`) are `Option String`; `body` is the
raw request body as bytes; `user` is `request.user` when the attribute
exists and is not `None`. -/
structure HttpRequest where
  scheme : String
  host : String
  path : String
  query : String
  method : Option String
  http_x_forwarded_for : Option String
  remote_addr : Option String
  http_user_agent : Option String
  content_length : Option String
  body : List Nat
  user : Option UserInfo
deriving Repr, DecidableEq

/-- An HTTP response as the middleware sees it: a status code and,
when the object has a `content` attribute, its bytes. -/
structure HttpResponse where
  status_code : Int
  content : Option (List Nat)
deriving Repr, DecidableEq

/-- Python `s.split(",")[0]`: the prefix of `s` before the first comma
(the whole of `s` when it holds no comma). No trimming is applied. -/
def splitCommaFirst (s : String) : String :=
  String.mk (s.toList.takeWhile (· != ','))

/-- True on the characters Python `str.strip()` removes. -/
def isSpaceChar (c : Char) : Bool :=
  c == ' ' || c == '\t' || c == '\n' || c == '\r' || c == '\x0b' || c == '\x0c'

/-- Python `s.strip()`: drop whitespace from both ends. -/
def pyStrip (s : String) : String :=
  String.mk
    (((s.toList.dropWhile isSpaceChar).reverse.dropWhile isSpaceChar).reverse)

/-- `RequestLoggingMiddleware.get_client_ip`: the forwarded-for header
is consulted first with a truthiness test (`if x_forwarded_for:`), so a
missing header and an empty-string header both fall back to
`REMOTE_ADDR`; a missing `REMOTE_ADDR` yields `None`. -/
def get_client_ip (req : HttpRequest) : Option String :=
  match req.http_x_forwarded_for with
  | some s => if s = "" then req.remote_addr else some (splitCommaFirst s)
  | none => req.remote_addr

/-- The claim wording for the forwarded-for derivation, written from
the spec for comparison: first comma-separated entry, trimmed of
whitespace. -/
def claimed_forwarded_ip (s : String) : String :=
  pyStrip (splitCommaFirst s)

/-- True on a non-empty list of ASCII decimal digits. -/
def isDigits (l : List Char) : Bool :=
  !l.isEmpty && l.all (·.isDigit)

/-- Numeric value of a list of ASCII decimal digits. -/
def digitsToNat (l : List Char) : Nat :=
  l.foldl (fun acc c => acc * 10 + (c.toNat - 48)) 0

/-- Python `int(s)` on a string: strip surrounding whitespace, allow an
optional sign, then require at least one decimal digit; anything else
raises `ValueError`. (Digit-group underscores and non-ASCII digits,
which CPython also accepts, are not modelled; no claim depends on
them.) -/
def pyInt (s : String) : Except PyExn Int :=
  match (pyStrip s).toList with
  | '-' :: rest =>
      if isDigits rest then Except.ok (-(digitsToNat rest : Int))
      else Except.error ("invalid literal for int() with base 10: " ++ s)
  | '+' :: rest =>
      if isDigits rest then Except.ok (digitsToNat rest : Int)
      else Except.error ("invalid literal for int() with base 10: " ++ s)
  | l =>
      if isDigits l then Except.ok (digitsToNat l : Int)
      else Except.error ("invalid literal for int() with base 10: " ++ s)

/-- The `response_size` half of `_calculate_sizes`:
`len(response.content) if hasattr(response, "content") else 0`. -/
def response_size_calc (resp : HttpResponse) : Nat :=
  match resp.content with
  | some c => c.length
  | none => 0

/-- `RequestLoggingMiddleware._calculate_sizes`:
`int(content_length) if content_length else len(request.body)` for the
request size (so `int` raises on a present, non-empty, unparseable
header), paired with the response size. -/
def calculate_sizes (req : HttpRequest) (resp : HttpResponse) :
    Except PyExn (Int × Nat) :=
  match req.content_length with
  | some s =>
      if s = "" then Except.ok ((req.body.length : Int), response_size_calc resp)
      else (pyInt s).map (fun n => (n, response_size_calc resp))
  | none => Except.ok ((req.body.length : Int), response_size_calc resp)

/-- True on a UTF-8 continuation byte (0x80–0xBF). -/
def isCont (c : Nat) : Bool :=
  0x80 ≤ c && c ≤ 0xBF

/-- Admissible first continuation byte of a three-byte UTF-8 sequence
led by `b` (strict decoding: overlong forms and surrogates rejected). -/
def cont3first (b c : Nat) : Bool :=
  if b = 0xE0 then 0xA0 ≤ c && c ≤ 0xBF
  else if b = 0xED then 0x80 ≤ c && c ≤ 0x9F
  else isCont c

/-- Admissible first continuation byte of a four-byte UTF-8 sequence
led by `b` (strict decoding: overlongs and values past U+10FFFF
rejected). -/
def cont4first (b c : Nat) : Bool :=
  if b = 0xF0 then 0x90 ≤ c && c ≤ 0xBF
  else if b = 0xF4 then 0x80 ≤ c && c ≤ 0x8F
  else isCont c

/-- Strict UTF-8 decoding of a byte list, as Python
`bytes.decode("utf-8")`: `none` models `UnicodeDecodeError`. -/
def utf8DecodeGo : List Nat → Option (List Char)
  | [] => some []
  | b :: rest =>
    if b ≤ 0x7F then (utf8DecodeGo rest).map (fun cs => Char.ofNat b :: cs)
    else if 0xC2 ≤ b && b ≤ 0xDF then
      match rest with
      | c1 :: rest1 =>
        if isCont c1 then
          (utf8DecodeGo rest1).map
            (fun cs => Char.ofNat ((b - 0xC0) * 64 + (c1 - 0x80)) :: cs)
        else none
      | [] => none
    else if 0xE0 ≤ b && b ≤ 0xEF then
      match rest with
      | c1 :: c2 :: rest2 =>
        if cont3first b c1 && isCont c2 then
          (utf8DecodeGo rest2).map
            (fun cs =>
              Char.ofNat ((b - 0xE0) * 4096 + (c1 - 0x80) * 64 + (c2 - 0x80)) :: cs)
        else none
      | _ => none
    else if 0xF0 ≤ b && b ≤ 0xF4 then
      match rest with
      | c1 :: c2 :: c3 :: rest3 =>
        if cont4first b c1 && isCont c2 && isCont c3 then
          (utf8DecodeGo rest3).map
            (fun cs =>
              Char.ofNat
                ((b - 0xF0) * 262144 + (c1 - 0x80) * 4096
                  + (c2 - 0x80) * 64 + (c3 - 0x80)) :: cs)
        else none
      | _ => none
    else none

/-- `bytes.decode("utf-8")` as a string, `none` on decode error. -/
def utf8Decode (l : List Nat) : Option String :=
  (utf8DecodeGo l).map (fun cs => String.mk cs)

/-- Textual escape of one byte inside Python `str(bytes)` output. -/
def pyByteEscape (b : Nat) : String :=
  if b = 0x5C then "\\\\"
  else if b = 0x27 then "\\\x27"
  else if b = 0x09 then "\\t"
  else if b = 0x0A then "\\n"
  else if b = 0x0D then "\\r"
  else if 0x20 ≤ b && b ≤ 0x7E then String.mk [Char.ofNat b]
  else "\\x" ++ String.mk [Nat.digitChar (b / 16), Nat.digitChar (b % 16)]

/-- Python `str(b)` on a bytes value: its repr. (CPython switches to
double quotes when the bytes hold a single quote and no double quote;
that corner is not modelled and no claim depends on it.) -/
def pyBytesRepr (l : List Nat) : String :=
  "b\x27" ++ String.join (l.map pyByteEscape) ++ "\x27"

/-- `RequestLoggingMiddleware._get_error_content`: for status ≥ 400,
decode the body as UTF-8, falling back to `str(response.content)` on
`UnicodeDecodeError`; otherwise the empty string. When the response has
no `content` attribute the access raises `AttributeError`, and the
fallback `str(response.content)` re-raises it, so the call raises. -/
def get_error_content (resp : HttpResponse) : Except PyExn String :=
  if (400 : Int) ≤ resp.status_code then
    match resp.content with
    | some bs =>
        match utf8Decode bs with
        | some s => Except.ok s
        | none => Except.ok (pyBytesRepr bs)
    | none => Except.error "AttributeError: content"
  else Except.ok ""

/-- `RequestLoggingMiddleware._get_user_info`: the authenticated user
and username, or `(None, "")` for anonymous requests. -/
def get_user_info (req : HttpRequest) : Option UserInfo × String :=
  match req.user with
  | some u => if u.is_authenticated then (some u, u.username) else (none, "")
  | none => (none, "")

deriving instance DecidableEq for Except

/-- Result of one `RequestLoggingMiddleware.__call__`: what the caller
receives (the response, or the handler exception re-raised), the logger
state after the call, and the error-log lines emitted. -/
structure CallResult where
  response : Except PyExn HttpResponse
  logger : LoggerState
  logs : List String
deriving Repr, DecidableEq

/-- `RequestLoggingMiddleware.__call__`: the handler runs outside the
try block, so its exception propagates untouched with no enqueue.
Inside the try block the two fallible derivations run in source order
(`_calculate_sizes`, then `_get_error_content`); a raise is caught,
logged as `"Error in RequestLoggingMiddleware: <cause>"`, and the
handler response is returned regardless. `handler` is the outcome of
`self.get_response(request)`; `start_at` and `now` are the two clock
reads. -/
def middleware_call (handler : Except PyExn HttpResponse)
    (req : HttpRequest) (st : LoggerState) (start_at now : Nat) : CallResult :=
  match handler with
  | Except.error e => { response := Except.error e, logger := st, logs := [] }
  | Except.ok resp =>
    match calculate_sizes req resp with
    | Except.error e =>
        { response := Except.ok resp, logger := st,
          logs := ["Error in RequestLoggingMiddleware: " ++ e] }
    | Except.ok sizes =>
      match get_error_content resp with
      | Except.error e =>
          { response := Except.ok resp, logger := st,
            logs := ["Error in RequestLoggingMiddleware: " ++ e] }
      | Except.ok err =>
          { response := Except.ok resp,
            logger := log_request st
              { scheme := req.scheme, host := req.host, path := req.path,
                query := req.query, method := req.method,
                ip_address := get_client_ip req,
                user_agent := req.http_user_agent.getD "",
                user := (get_user_info req).1,
                username := (get_user_info req).2,
                start_at := start_at, end_at := now,
                status_code := resp.status_code, error := err,
                request_size := sizes.1, response_size := sizes.2 },
            logs := [] }

/-- The list of `bulk_create` batches produced by the drain loop when
every call succeeds, starting from an in-progress `batch`: cut a batch
whenever it reaches `B` elements, with the remainder last. -/
def buildChunks (B : Nat) : List Rec → List Rec → List (List Rec)
  | batch, [] => if batch.isEmpty then [] else [batch]
  | batch, item :: rest =>
      if B ≤ (batch ++ [item]).length then
        (batch ++ [item]) :: buildChunks B [] rest
      else buildChunks B (batch ++ [item]) rest

theorem processBatchGo_all_ok (B : Nat) (q : List Rec) :
    ∀ (batch : List Rec) (k : Nat) (acc : List (List Rec)),
      processBatchGo B (fun _ => true) q batch k acc =
        { persisted := acc ++ buildChunks B batch q, queue := [],
          raised := false } := by
  induction q with
  | nil =>
      intro batch k acc
      by_cases h : batch.isEmpty <;> simp [processBatchGo, buildChunks, h]
  | cons item rest ih =>
      intro batch k acc
      by_cases h : B ≤ (batch ++ [item]).length
      · simp only [processBatchGo, buildChunks, if_pos h, ih]
        simp
      · simp only [processBatchGo, buildChunks, if_neg h, ih]

theorem buildChunks_join (B : Nat) (q : List Rec) :
    ∀ batch, (buildChunks B batch q).flatten = batch ++ q := by
  induction q with
  | nil =>
      intro batch
      by_cases h : batch.isEmpty <;>
        simp_all [buildChunks, List.isEmpty_iff]
  | cons item rest ih =>
      intro batch
      by_cases h : B ≤ (batch ++ [item]).length
      · simp only [buildChunks, if_pos h]
        simp [ih]
      · simp only [buildChunks, if_neg h]
        simp [ih]

theorem buildChunks_length (B : Nat) (q : List Rec) :
    ∀ batch, batch.length < B →
      (buildChunks B batch q).length = (batch.length + q.length + B - 1) / B := by
  induction q with
  | nil =>
      intro batch h
      by_cases hb : batch.isEmpty
      · have : batch = [] := List.isEmpty_iff.mp hb
        subst this
        simp only [buildChunks, List.isEmpty_nil, if_true, List.length_nil]
        have : (0 + 0 + B - 1) / B = 0 := Nat.div_eq_of_lt (by omega)
        omega
      · have hne : batch ≠ [] := fun hq => hb (by simp [hq])
        have hm : 1 ≤ batch.length := by
          cases batch with
          | nil => exact absurd rfl hne
          | cons a l => simp
        simp only [buildChunks, hb, if_false, Bool.false_eq_true,
          List.length_cons, List.length_nil]
        have e : batch.length + 0 + B - 1 = (batch.length - 1) + B := by omega
        rw [e, Nat.add_div_right _ (by omega)]
        have : (batch.length - 1) / B = 0 := Nat.div_eq_of_lt (by omega)
        omega
  | cons item rest ih =>
      intro batch h
      have hlen : (batch ++ [item]).length = batch.length + 1 := by simp
      by_cases hc : B ≤ (batch ++ [item]).length
      · have hB : batch.length + 1 = B := by omega
        simp only [buildChunks, if_pos hc, List.length_cons]
        rw [ih [] (by simp only [List.length_nil]; omega)]
        simp only [List.length_nil, List.length_cons, Nat.zero_add]
        have e : batch.length + (rest.length + 1) + B - 1 =
            rest.length + B - 1 + B := by omega
        rw [e, Nat.add_div_right _ (by omega)]
      · have h' : (batch ++ [item]).length < B := by omega
        simp only [buildChunks, if_neg hc]
        rw [ih (batch ++ [item]) h']
        rw [hlen]
        simp only [List.length_cons]
        have e : batch.length + 1 + rest.length + B - 1 =
            batch.length + (rest.length + 1) + B - 1 := by omega
        rw [e]

theorem buildChunks_shape (B : Nat) (q : List Rec) :
    ∀ batch, batch.length < B →
      (∀ c ∈ (buildChunks B batch q).dropLast, c.length = B) ∧
      (∀ l, (buildChunks B batch q).getLast? = some l →
        l.length = if (batch.length + q.length) % B = 0 then B
          else (batch.length + q.length) % B) := by
  induction q with
  | nil =>
      intro batch h
      by_cases hb : batch.isEmpty
      · simp [buildChunks, hb]
      · have hne : batch ≠ [] := by
          intro hq
          rw [hq] at hb
          exact hb rfl
        have hm : 0 < batch.length := List.length_pos.mpr hne
        refine ⟨?_, ?_⟩
        · simp [buildChunks, hb]
        · intro l hl
          simp [buildChunks, hb] at hl
          subst hl
          simp only [List.length_nil, Nat.add_zero, Nat.mod_eq_of_lt h]
          rw [if_neg (by omega)]
  | cons item rest ih =>
      intro batch h
      have hlen : (batch ++ [item]).length = batch.length + 1 := by simp
      by_cases hc : B ≤ (batch ++ [item]).length
      · have hB : batch.length + 1 = B := by omega
        simp only [buildChunks, if_pos hc]
        cases hcs : buildChunks B [] rest with
        | nil =>
            have hrest : rest = [] := by
              have hj := buildChunks_join B rest []
              rw [hcs] at hj
              simpa using hj.symm
            subst hrest
            refine ⟨?_, ?_⟩
            · simp
            · intro l hl
              simp at hl
              subst hl
              simp only [List.length_cons, List.length_nil, Nat.zero_add]
              rw [hlen, hB, if_pos (Nat.mod_self B)]
        | cons c cs =>
            obtain ⟨ihd, ihl⟩ := ih [] (by simp only [List.length_nil]; omega)
            rw [hcs] at ihd ihl
            refine ⟨?_, ?_⟩
            · intro x hx
              rw [List.dropLast_cons₂] at hx
              rcases List.mem_cons.mp hx with hx | hx
              · rw [hx, hlen, hB]
              · exact ihd x hx
            · intro l hl
              rw [List.getLast?_cons_cons] at hl
              have := ihl l hl
              simp only [List.length_nil, Nat.zero_add] at this
              simp only [List.length_cons]
              have e : (batch.length + (rest.length + 1)) % B = rest.length % B := by
                have e2 : batch.length + (rest.length + 1) = B + rest.length := by omega
                rw [e2, Nat.add_mod_left]
              rw [e]
              exact this
      · have h' : (batch ++ [item]).length < B := by omega
        obtain ⟨ihd, ihl⟩ := ih (batch ++ [item]) h'
        simp only [buildChunks, if_neg hc]
        refine ⟨ihd, ?_⟩
        intro l hl
        have := ihl l hl
        rw [hlen] at this
        simp only [List.length_cons]
        have e : batch.length + (rest.length + 1) = batch.length + 1 + rest.length := by
          omega
        rw [e]
        exact this

/-- A concrete record fixture, distinguished by its path. -/
def mkRec (p : String) : Rec :=
  { scheme := "http", host := "test.com", path := p, query := "",
    method := some "GET", ip_address := some "127.0.0.1", user_agent := "",
    user := none, username := "", start_at := 0, end_at := 0,
    status_code := 200, error := "", request_size := 0, response_size := 0 }

/-- A concrete logger-state fixture: three queued records, batch size 2. -/
def wstate : LoggerState :=
  { queue := [mkRec "/a", mkRec "/b", mkRec "/c"], batch_size := 2,
    flush_interval := 5, last_flush := 0 }

/-- A concrete logger-state fixture for the failing-sink run. -/
def failState : LoggerState :=
  { queue := [mkRec "/a", mkRec "/b"], batch_size := 1,
    flush_interval := 5, last_flush := 0 }

/-- Claim C1: with batch threshold B > 0 and N queued records, the
synchronous drain `process_batch` persists exactly the N queued records
in queue order, split into ⌈N/B⌉ bulk-insert calls, each call before
the last persisting exactly B records and the last persisting N mod B
records (B when N is a multiple of B). -/
theorem process_batch_bulk_call_sizes (st : LoggerState)
    (hB : 0 < st.batch_size) :
    ((process_batch (fun _ => true) st).1).raised = false ∧
    ((process_batch (fun _ => true) st).1).queue = [] ∧
    ((process_batch (fun _ => true) st).1).persisted.flatten = st.queue ∧
    ((process_batch (fun _ => true) st).1).persisted.length =
      (st.queue.length + st.batch_size - 1) / st.batch_size ∧
    (∀ c ∈ ((process_batch (fun _ => true) st).1).persisted.dropLast,
      c.length = st.batch_size) ∧
    (∀ l, ((process_batch (fun _ => true) st).1).persisted.getLast? = some l →
      l.length = if st.queue.length % st.batch_size = 0 then st.batch_size
        else st.queue.length % st.batch_size) := by
  have hres : (process_batch (fun _ => true) st).1 =
      { persisted := buildChunks st.batch_size [] st.queue, queue := [],
        raised := false } := by
    simp [process_batch, processBatchGo_all_ok]
  rw [hres]
  have hj := buildChunks_join st.batch_size st.queue []
  have hl := buildChunks_length st.batch_size st.queue []
    (by simp only [List.length_nil]; omega)
  have hs := buildChunks_shape st.batch_size st.queue []
    (by simp only [List.length_nil]; omega)
  simp only [List.length_nil, Nat.zero_add] at hl hs
  exact ⟨rfl, rfl, by simpa using hj, hl, hs.1, hs.2⟩

/-- Witness for C1 at a concrete state: three records, batch size 2, so
two bulk-insert calls of sizes 2 and 1. -/
theorem process_batch_bulk_call_sizes_witness :
    0 < wstate.batch_size ∧
    (((process_batch (fun _ => true) wstate).1).raised = false ∧
    ((process_batch (fun _ => true) wstate).1).queue = [] ∧
    ((process_batch (fun _ => true) wstate).1).persisted.flatten = wstate.queue ∧
    ((process_batch (fun _ => true) wstate).1).persisted.length =
      (wstate.queue.length + wstate.batch_size - 1) / wstate.batch_size ∧
    (∀ c ∈ ((process_batch (fun _ => true) wstate).1).persisted.dropLast,
      c.length = wstate.batch_size) ∧
    (∀ l, ((process_batch (fun _ => true) wstate).1).persisted.getLast? = some l →
      l.length = if wstate.queue.length % wstate.batch_size = 0 then wstate.batch_size
        else wstate.queue.length % wstate.batch_size)) :=
  ⟨by decide, process_batch_bulk_call_sizes wstate (by decide)⟩

/-- Claim C2: a flush clears the batch whether or not the bulk insert
raised, never touches the queue, and persists nothing from a failed
batch (dropped, not retried or requeued). -/
theorem flush_batch_always_clears (oc : Option PyExn) (e : PyExn) (now : Nat)
    (st : LoggerState) (batch : List Rec) :
    (flush_batch oc now st batch).batch = [] ∧
    (flush_batch oc now st batch).logger.queue = st.queue ∧
    (flush_batch (some e) now st batch).persisted = [] := by
  cases oc <;> simp [flush_batch]

/-- Claim C9: a failed flush leaves the whole logger state — including
`last_flush` — unchanged; a successful flush changes `last_flush` to
the current time and nothing else. -/
theorem flush_batch_frame (e : PyExn) (now : Nat) (st : LoggerState)
    (batch : List Rec) :
    (flush_batch (some e) now st batch).logger = st ∧
    (flush_batch none now st batch).logger = { st with last_flush := now } ∧
    (flush_batch none now st batch).logger.batch_size = st.batch_size ∧
    (flush_batch none now st batch).logger.flush_interval = st.flush_interval ∧
    (flush_batch none now st batch).logger.queue = st.queue := by
  simp [flush_batch]

/-- Claim C8 (counterexample): with batch size 1, two queued records
and a sink whose bulk insert raises, `process_batch` lets the
exception escape to the caller and leaves the second record in the
queue, against the claim that a bulk-insert failure during the drain
neither escapes nor leaves items queued. -/
theorem process_batch_failure_cex :
    ((process_batch (fun _ => false) failState).1).raised = true ∧
    ((process_batch (fun _ => false) failState).1).queue = [mkRec "/b"] ∧
    ((process_batch (fun _ => false) failState).1).persisted = [] := by
  decide

/-- Claim C8 (amended): when every bulk-insert call succeeds,
`process_batch` returns with nothing raised, the queue empty, and every
initially queued record persisted; a failing bulk insert instead
propagates out of `process_batch` (there is no try/except there) and
leaves the not-yet-dequeued records in the queue. -/
theorem process_batch_drains_on_success (st : LoggerState) :
    ((process_batch (fun _ => true) st).1).raised = false ∧
    ((process_batch (fun _ => true) st).2).queue = [] ∧
    ((process_batch (fun _ => true) st).1).persisted.flatten = st.queue := by
  have hres : processBatchGo st.batch_size (fun _ => true) st.queue [] 0 [] =
      { persisted := buildChunks st.batch_size [] st.queue, queue := [],
        raised := false } := processBatchGo_all_ok st.batch_size st.queue [] 0 []
  have hj := buildChunks_join st.batch_size st.queue []
  refine ⟨?_, ?_, ?_⟩ <;> simp [process_batch, hres]
  simpa using hj

/-- A baseline request fixture: no forwarded-for header, a remote
address, no content-length, empty body, anonymous. -/
def baseReq : HttpRequest :=
  { scheme := "http", host := "test.com", path := "/", query := "",
    method := some "GET", http_x_forwarded_for := none,
    remote_addr := some "192.168.1.1", http_user_agent := none,
    content_length := none, body := [], user := none }

/-- A request whose forwarded-for header has whitespace before the
first comma. -/
def trimCexReq : HttpRequest :=
  { baseReq with http_x_forwarded_for := some "10.0.0.1 , 192.168.1.1" }

/-- A request carrying the spec example forwarded-for header. -/
def xffReq : HttpRequest :=
  { baseReq with http_x_forwarded_for := some "10.0.0.1, 192.168.1.1" }

/-- A request with neither a forwarded-for header nor a remote
address. -/
def bareReq : HttpRequest :=
  { baseReq with remote_addr := none }

/-- A request whose forwarded-for header is present but empty. -/
def emptyXffReq : HttpRequest :=
  { baseReq with http_x_forwarded_for := some "" }

/-- Claim C3 (counterexample): for the header
"10.0.0.1 , 192.168.1.1" the code keeps the trailing space of the
first comma-separated entry, so the derived IP is not the trimmed
first entry the claim describes. -/
theorem get_client_ip_not_trimmed_cex :
    get_client_ip trimCexReq = some "10.0.0.1 " ∧
    claimed_forwarded_ip "10.0.0.1 , 192.168.1.1" = "10.0.0.1" ∧
    get_client_ip trimCexReq ≠
      some (claimed_forwarded_ip "10.0.0.1 , 192.168.1.1") := by
  decide

/-- Claim C3 (amended): with a present, non-empty forwarded-for header
the derived IP is its first comma-separated entry, taken verbatim with
no whitespace trimming; with no header it is the connection's remote
address; with neither present it is `None`. -/
theorem get_client_ip_first_entry_untrimmed (req : HttpRequest) (s : String) :
    (req.http_x_forwarded_for = some s → s ≠ "" →
      get_client_ip req = some (splitCommaFirst s)) ∧
    (req.http_x_forwarded_for = none →
      get_client_ip req = req.remote_addr) ∧
    (req.http_x_forwarded_for = none → req.remote_addr = none →
      get_client_ip req = none) := by
  refine ⟨?_, ?_, ?_⟩
  · intro h hs
    simp [get_client_ip, h, hs]
  · intro h
    simp [get_client_ip, h]
  · intro h h2
    simp [get_client_ip, h, h2]

/-- Witness for amended C3: the spec example header yields "10.0.0.1",
and a request with neither header yields `None`. -/
theorem get_client_ip_first_entry_untrimmed_witness :
    get_client_ip xffReq = some "10.0.0.1" ∧
    get_client_ip bareReq = none := by
  constructor
  · have h := (get_client_ip_first_entry_untrimmed xffReq
      "10.0.0.1, 192.168.1.1").1 rfl (by decide)
    rw [h]
    decide
  · exact (get_client_ip_first_entry_untrimmed bareReq "").2.2 rfl rfl

/-- Claim C10: a present but empty forwarded-for header is treated as
absent — presence is tested by truthiness — so the derivation falls
back to the connection's remote address. -/
theorem get_client_ip_empty_header_falls_back (req : HttpRequest)
    (h : req.http_x_forwarded_for = some "") :
    get_client_ip req = req.remote_addr := by
  simp [get_client_ip, h]

/-- Witness for C10 at a concrete request. -/
theorem get_client_ip_empty_header_falls_back_witness :
    emptyXffReq.http_x_forwarded_for = some "" ∧
    get_client_ip emptyXffReq = emptyXffReq.remote_addr :=
  ⟨rfl, get_client_ip_empty_header_falls_back emptyXffReq rfl⟩

/-- A 200 response with empty content. -/
def plainResp : HttpResponse := { status_code := 200, content := some [] }

/-- A request whose content-length header is present but not an
integer, with a two-byte body. -/
def unparseableReq : HttpRequest :=
  { baseReq with content_length := some "abc", body := [120, 121] }

/-- A request with a parseable content-length header of "42" and a
three-byte body. -/
def clReq : HttpRequest :=
  { baseReq with content_length := some "42", body := [1, 2, 3] }

/-- Claim C4 (counterexample): with content-length header "abc" and a
two-byte body, `_calculate_sizes` does not fall back to the measured
body length — `int("abc")` raises `ValueError` instead. -/
theorem calculate_sizes_unparseable_cex :
    unparseableReq.content_length = some "abc" ∧
    unparseableReq.body.length = 2 ∧
    calculate_sizes unparseableReq plainResp ≠
      Except.ok ((2 : Int), response_size_calc plainResp) ∧
    calculate_sizes unparseableReq plainResp =
      Except.error "invalid literal for int() with base 10: abc" := by
  decide

/-- Claim C4 (amended): `request_size` is the integer value of the
content-length header when the header is present, non-empty and
parseable; it is the measured body length when the header is absent or
empty; and when the header is present, non-empty and unparseable the
computation raises (the middleware then logs the error and persists no
record) instead of falling back to the body length. -/
theorem calculate_sizes_request_size_cases (req : HttpRequest)
    (resp : HttpResponse) (s : String) (n : Int) (e : PyExn) :
    (req.content_length = none →
      calculate_sizes req resp =
        Except.ok ((req.body.length : Int), response_size_calc resp)) ∧
    (req.content_length = some "" →
      calculate_sizes req resp =
        Except.ok ((req.body.length : Int), response_size_calc resp)) ∧
    (req.content_length = some s → s ≠ "" → pyInt s = Except.ok n →
      calculate_sizes req resp = Except.ok (n, response_size_calc resp)) ∧
    (req.content_length = some s → s ≠ "" → pyInt s = Except.error e →
      calculate_sizes req resp = Except.error e) := by
  refine ⟨?_, ?_, ?_, ?_⟩
  · intro h
    simp [calculate_sizes, h]
  · intro h
    simp [calculate_sizes, h]
  · intro h hs hp
    simp [calculate_sizes, h, hs, hp, Except.map]
  · intro h hs hp
    simp [calculate_sizes, h, hs, hp, Except.map]

/-- Witness for amended C4: header "42" over a three-byte body gives
request size 42. -/
theorem calculate_sizes_request_size_cases_witness :
    calculate_sizes clReq plainResp =
      Except.ok ((42 : Int), response_size_calc plainResp) :=
  (calculate_sizes_request_size_cases clReq plainResp "42" 42 "e").2.2.1
    rfl (by decide) (by decide)

/-- Claim C5: when the downstream handler raises, `__call__` re-raises
the same exception unmodified — the handler runs outside the try block
— and the logger state is untouched: no record is enqueued. -/
theorem middleware_reraises_handler_exception (e : PyExn)
    (req : HttpRequest) (st : LoggerState) (start_at now : Nat) :
    middleware_call (Except.error e) req st start_at now =
      { response := Except.error e, logger := st, logs := [] } := rfl

/-- Claim C6: when a metadata derivation raises, `__call__` catches the
exception, logs "Error in RequestLoggingMiddleware: " followed by the
exception's message, and still returns the handler's response; the
response is returned unmodified in every case. -/
theorem middleware_catches_derivation_errors (req : HttpRequest)
    (resp : HttpResponse) (st : LoggerState) (start_at now : Nat) :
    (middleware_call (Except.ok resp) req st start_at now).response =
      Except.ok resp ∧
    (∀ e, calculate_sizes req resp = Except.error e →
      middleware_call (Except.ok resp) req st start_at now =
        { response := Except.ok resp, logger := st,
          logs := ["Error in RequestLoggingMiddleware: " ++ e] }) ∧
    (∀ sz e, calculate_sizes req resp = Except.ok sz →
      get_error_content resp = Except.error e →
      middleware_call (Except.ok resp) req st start_at now =
        { response := Except.ok resp, logger := st,
          logs := ["Error in RequestLoggingMiddleware: " ++ e] }) := by
  refine ⟨?_, ?_, ?_⟩
  · cases h1 : calculate_sizes req resp with
    | error e => simp [middleware_call, h1]
    | ok sz =>
        cases h2 : get_error_content resp with
        | error e => simp [middleware_call, h1, h2]
        | ok err => simp [middleware_call, h1, h2]
  · intro e he
    simp [middleware_call, he]
  · intro sz e hs hg
    simp [middleware_call, hs, hg]

/-- Witness for C6: the unparseable content-length request makes the
size derivation raise; the middleware logs the message and returns the
200 response. -/
theorem middleware_catches_derivation_errors_witness :
    middleware_call (Except.ok plainResp) unparseableReq wstate 0 1 =
      { response := Except.ok plainResp, logger := wstate,
        logs := ["Error in RequestLoggingMiddleware: " ++
          "invalid literal for int() with base 10: abc"] } :=
  (middleware_catches_derivation_errors unparseableReq plainResp
    wstate 0 1).2.1 "invalid literal for int() with base 10: abc" (by decide)

/-- A 200 response with non-empty content. -/
def okResp : HttpResponse := { status_code := 200, content := some [79, 75] }

/-- A 404 response whose body decodes as "Error". -/
def errResp : HttpResponse :=
  { status_code := 404, content := some [69, 114, 114, 111, 114] }

/-- A 500 response whose single byte 0xFF is not valid UTF-8. -/
def binResp : HttpResponse := { status_code := 500, content := some [255] }

/-- Claim C7: the derived error field is "" for status below 400, the
UTF-8 decoding of the body for status at least 400, and the raw
textual representation of the body when that decoding fails. -/
theorem get_error_content_cases (resp : HttpResponse) (bs : List Nat)
    (s : String) :
    (resp.status_code < 400 → get_error_content resp = Except.ok "") ∧
    ((400 : Int) ≤ resp.status_code → resp.content = some bs →
      utf8Decode bs = some s → get_error_content resp = Except.ok s) ∧
    ((400 : Int) ≤ resp.status_code → resp.content = some bs →
      utf8Decode bs = none →
      get_error_content resp = Except.ok (pyBytesRepr bs)) := by
  refine ⟨?_, ?_, ?_⟩
  · intro h
    have h' : ¬ (400 : Int) ≤ resp.status_code := by omega
    simp [get_error_content, h']
  · intro h h1 h2
    simp [get_error_content, h, h1, h2]
  · intro h h1 h2
    simp [get_error_content, h, h1, h2]

/-- Witness for C7 at three concrete responses: a 200 gives "", a 404
with body "Error" gives "Error", a 500 with invalid UTF-8 gives the
bytes repr. -/
theorem get_error_content_cases_witness :
    get_error_content okResp = Except.ok "" ∧
    get_error_content errResp = Except.ok "Error" ∧
    get_error_content binResp = Except.ok (pyBytesRepr [255]) := by
  refine ⟨?_, ?_, ?_⟩
  · exact (get_error_content_cases okResp [] "").1 (by decide)
  · exact (get_error_content_cases errResp [69, 114, 114, 111, 114]
      "Error").2.1 (by decide) rfl (by decide)
  · exact (get_error_content_cases binResp [255] "").2.2
      (by decide) rfl (by decide)

end NumenorMonitor
